import Mathlib

/-!
Verification of the power-estimation and aggregation core of the
`pc-power-monitor` repository (files `config.py`, `data_storage.py`,
`hardware_monitor.py`) against its natural-language specification.

Real (float) quantities are modelled as rationals `ℚ`; Python exceptions at
points where the source can raise are modelled by explicit environment flags
or `Option` values, with each `except` branch translated to the corresponding
alternative of the Lean function.  SQLite tables are modelled as Lean lists.
-/

namespace PCPower

/-! ### config.py -/

def DEFAULT_KWH_COST : ℚ := 15 / 100
def DEFAULT_POLLING_INTERVAL : ℚ := 5
def DEFAULT_CPU_TDP : ℚ := 65
def DEFAULT_GPU_TDP : ℚ := 150
def DEFAULT_MOTHERBOARD_POWER : ℚ := 30
def DEFAULT_RAM_PER_STICK : ℚ := 5
def DEFAULT_SSD_POWER : ℚ := 3
def DEFAULT_HDD_POWER : ℚ := 7
def DEFAULT_IDLE_POWER : ℚ := 20
def CPU_UTILIZATION_SCALING : ℚ := 7 / 10
def GPU_UTILIZATION_SCALING : ℚ := 8 / 10

/-! ### data_storage.py — settings store

The `settings` SQLite table row for key `"kwh_cost"` is modelled as an
`Option ℚ` (`none` = row absent).  `str`/`float` serialisation of the value is
the identity on the modelled rationals.  The `sqlite3.Error` branches of
`get_kwh_cost`/`set_kwh_cost` (database-level I/O failures) are outside the
model; on the non-error path `set_kwh_cost` performs the `UPDATE` (or
`INSERT OR REPLACE`) unconditionally — the source contains no validation of
`cost`. -/

structure SettingsStore where
  kwh_cost : Option ℚ
deriving DecidableEq

/-- Model of `DataStorage.set_kwh_cost`: the
`UPDATE settings SET value = ? WHERE key = 'kwh_cost'` stores `str(cost)` when
the row exists.  When the row is absent the `UPDATE` matches zero rows and
raises no `sqlite3.Error`, so nothing is stored — the `INSERT OR REPLACE`
fallback fires only on `sqlite3.Error`, which is outside the model. -/
def set_kwh_cost (s : SettingsStore) (cost : ℚ) : SettingsStore :=
  match s.kwh_cost with
  | some _ => { kwh_cost := some cost }
  | none => s

/-- Model of `DataStorage.get_kwh_cost`: returns the stored value, or
`config.DEFAULT_KWH_COST` when the row is absent. -/
def get_kwh_cost (s : SettingsStore) : ℚ :=
  s.kwh_cost.getD DEFAULT_KWH_COST

/-! ### data_storage.py — readings and daily aggregation -/

/-- One row of the `power_readings` table.  `date` is `date(timestamp)` of the
row's insertion timestamp. -/
structure Reading where
  date : String
  total_power : ℚ
  cost : ℚ
deriving DecidableEq

/-- One row of the `daily_power` table (primary key `date`). -/
structure DailyAggregate where
  date : String
  avg_power : ℚ
  max_power : ℚ
  total_energy : ℚ
  cost : ℚ
  usage_hours : ℚ
deriving DecidableEq

/-- The constant `hours_per_reading = config.DEFAULT_POLLING_INTERVAL / 3600` from
`DataStorage._update_daily_aggregation`. -/
def hours_per_reading : ℚ := DEFAULT_POLLING_INTERVAL / 3600

/-- Python `max(r['total_power'] for r in readings)` on a non-empty list
`r :: tl`. -/
def maxTotalPower (r : Reading) (tl : List Reading) : ℚ :=
  (tl.map Reading.total_power).foldl max r.total_power

/-- The aggregate row computed by `DataStorage._update_daily_aggregation` from
the `power_readings` rows whose date equals `today`; `none` when there are no
such rows (the early `return`). -/
def aggregate_readings (today : String) (rows : List Reading) : Option DailyAggregate :=
  match rows.filter (fun r => r.date = today) with
  | [] => none
  | r :: tl =>
    let readings := r :: tl
    let total_power := (readings.map Reading.total_power).sum
    let avg_power := total_power / readings.length
    let max_power := maxTotalPower r tl
    let total_energy := (readings.map (fun x => x.total_power / 1000 * hours_per_reading)).sum
    let total_cost := (readings.map Reading.cost).sum
    let usage_hours := (readings.length : ℚ) * hours_per_reading
    some ⟨today, avg_power, max_power, total_energy, total_cost, usage_hours⟩

/-- Model of `INSERT OR REPLACE INTO daily_power`: the `daily_power` table is keyed by
`date`, so the new row replaces any existing row with the same date. -/
def upsert_daily (table : List DailyAggregate) (a : DailyAggregate) : List DailyAggregate :=
  a :: table.filter (fun x => x.date ≠ a.date)

/-- The persistent state of `DataStorage` relevant to readings and
aggregation. -/
structure StorageState where
  settings : SettingsStore
  readings : List Reading
  daily_power : List DailyAggregate
deriving DecidableEq

/-- Model of `DataStorage._update_daily_aggregation`. -/
def update_daily_aggregation (today : String) (s : StorageState) : StorageState :=
  match aggregate_readings today s.readings with
  | none => s
  | some a => { s with daily_power := upsert_daily s.daily_power a }

/-- Model of `DataStorage.save_power_reading`: computes the per-reading cost assuming
the reading represents one hour, inserts the row, then updates the daily
aggregation.  The `kwh_cost = none` branch models the settings-row-present
case: on a store whose row is absent, the source's
`float(self.cursor.fetchone()['value'])` would raise `TypeError` instead of
substituting the default (the UI callback always passes the price
explicitly). -/
def save_power_reading (today : String) (s : StorageState) (total_power : ℚ)
    (kwh_cost : Option ℚ) : StorageState :=
  let kc := match kwh_cost with
    | none => get_kwh_cost s.settings
    | some c => c
  let cost := total_power / 1000 * kc
  let s1 : StorageState :=
    { s with readings := s.readings ++ [⟨today, total_power, cost⟩] }
  update_daily_aggregation today s1

/-! ### hardware_monitor.py — monitoring loop feeding storage

`HardwareMonitor._monitor_loop` sleeps `interval` seconds per tick and hands
each sample to the callback, which (via the UI layer) calls
`save_power_reading`.  The interval is used only for the sleep; it is never
passed to `DataStorage`.  `monitor_session` models one session on a single
calendar day: the first component of the result is the elapsed sleep time, the
second the storage state. -/

def monitor_session (today : String) (interval : ℚ) (powers : List ℚ)
    (s0 : StorageState) : ℚ × StorageState :=
  powers.foldl
    (fun acc tp => (acc.1 + interval, save_power_reading today acc.2 tp none))
    (0, s0)

/-! ### hardware_monitor.py — hardware detection

`Component` keeps the fields the specification's claims are about: the
component type and its rated power envelope (`max_power`).  Name/detail fields
of the source dictionaries are omitted.

Each sub-detector of `HardwareMonitor` builds a default record and then
refines it inside a `try` block; its `except` clause returns the record as
refined up to the point of failure.  The environment of each sub-detector
records the outcome of every probe that can change `max_power`, plus the
points at which an exception can escape to the sub-detector's outer `except`
(probes wrapped in their own inner `try/except` in the source cannot). -/

structure Component where
  ctype : String
  max_power : ℚ
deriving DecidableEq

/-- Outcome of the LibreHardwareMonitor block of a sub-detector: skipped (LHM
not initialised, or no matching power sensor found), a `TDP`/`Package` power
sensor value found, or the block raised (reaching the sub-detector's outer
`except`). -/
inductive LhmOutcome where
  | skip
  | found (v : ℚ)
  | raises
deriving DecidableEq

/-- Environment of `_detect_cpu`.  `freqRaises`: `psutil.cpu_freq()` (not
wrapped in an inner `try`) raises.  The registry / `/proc/cpuinfo` name probes
are inside inner `try` blocks and only touch the name, so they are not
modelled.  In the LHM block `max_power` is assigned at most once and is
immediately followed by `break`s, so a raise there leaves `max_power` at its
default. -/
structure CpuDetectEnv where
  freqRaises : Bool
  lhm : LhmOutcome
deriving DecidableEq

/-- Model of `HardwareMonitor._detect_cpu` (rated-power content). -/
def detect_cpu (env : CpuDetectEnv) : Component :=
  if env.freqRaises then ⟨"cpu", DEFAULT_CPU_TDP⟩
  else
    match env.lhm with
    | .skip => ⟨"cpu", DEFAULT_CPU_TDP⟩
    | .found v => ⟨"cpu", v⟩
    | .raises => ⟨"cpu", DEFAULT_CPU_TDP⟩

/-- Environment of `_detect_gpu`.  `nvidia = some pl` means the `nvidia-smi`
name query succeeded (`returncode == 0`, non-empty output); `pl` is the parsed
`power.default_limit` if that second query succeeded and parsed (the whole
nvidia block is inside an inner `try`, so it never raises outward).  The
WMI/lspci/sysfs name probes are inside inner `try` blocks and only touch the
name.  The LHM block (which is not inner-wrapped) comes last. -/
structure GpuDetectEnv where
  nvidia : Option (Option ℚ)
  lhm : LhmOutcome
deriving DecidableEq

/-- Model of `HardwareMonitor._detect_gpu` (rated-power content).  Note that when the
LHM block raises, the record returned by the outer `except` keeps the
`max_power` already set from `nvidia-smi`, not the built-in default. -/
def detect_gpu (env : GpuDetectEnv) : Component :=
  let p1 := match env.nvidia with
    | some (some pl) => pl
    | some none => DEFAULT_GPU_TDP
    | none => DEFAULT_GPU_TDP
  match env.lhm with
  | .skip => ⟨"gpu", p1⟩
  | .found v => ⟨"gpu", v⟩
  | .raises => ⟨"gpu", p1⟩

/-- Environment of `_detect_motherboard`.  All probes are in inner `try`
blocks or touch only the name; `max_power` is never refined, so the body's
possible raise (`bodyRaises`) does not affect the modelled record. -/
structure MbDetectEnv where
  bodyRaises : Bool
deriving DecidableEq

/-- Model of `HardwareMonitor._detect_motherboard` (rated-power content). -/
def detect_motherboard (_env : MbDetectEnv) : Component :=
  ⟨"motherboard", DEFAULT_MOTHERBOARD_POWER⟩

/-- Environment of `_detect_memory`.  `vmRaises`: `psutil.virtual_memory()`
(not inner-wrapped) raises — it precedes any `max_power` refinement.
`sticks`: the WMI / `dmidecode` stick count when that inner-wrapped probe
succeeds. -/
structure MemDetectEnv where
  vmRaises : Bool
  sticks : Option Nat
deriving DecidableEq

/-- Model of `HardwareMonitor._detect_memory` (rated-power content): default assumes
two sticks; a successful probe with `memory_sticks > 0` overrides. -/
def detect_memory (env : MemDetectEnv) : Component :=
  if env.vmRaises then ⟨"memory", DEFAULT_RAM_PER_STICK * 2⟩
  else
    match env.sticks with
    | some n =>
      if 0 < n then ⟨"memory", DEFAULT_RAM_PER_STICK * n⟩
      else ⟨"memory", DEFAULT_RAM_PER_STICK * 2⟩
    | none => ⟨"memory", DEFAULT_RAM_PER_STICK * 2⟩

/-- Environment of `_detect_storage`.  `partitionsRaise`:
`psutil.disk_partitions()` (not inner-wrapped) raises.  `disks`: the
SSD-classification of each successfully probed partition (per-disk errors are
caught by the per-disk inner `try`).  The trailing LHM block only calls
`Update()` and `pass`, so a raise there returns the already-accumulated
record unchanged. -/
structure StorageDetectEnv where
  partitionsRaise : Bool
  disks : List Bool
deriving DecidableEq

/-- Model of `HardwareMonitor._detect_storage` (rated-power content): sums the default
SSD/HDD wattage per detected device; initial `max_power` is `0`. -/
def detect_storage (env : StorageDetectEnv) : Component :=
  if env.partitionsRaise then ⟨"storage", 0⟩
  else
    ⟨"storage",
      (env.disks.map fun ssd =>
        if ssd then DEFAULT_SSD_POWER else DEFAULT_HDD_POWER).sum⟩

structure DetectEnv where
  cpu : CpuDetectEnv
  gpu : GpuDetectEnv
  mb : MbDetectEnv
  mem : MemDetectEnv
  storage : StorageDetectEnv
deriving DecidableEq

/-- Model of `HardwareMonitor.detect_hardware`: the five sub-detectors in source
order, keyed by component type. -/
def detect_hardware (env : DetectEnv) : List (String × Component) :=
  [("cpu", detect_cpu env.cpu),
   ("gpu", detect_gpu env.gpu),
   ("motherboard", detect_motherboard env.mb),
   ("memory", detect_memory env.mem),
   ("storage", detect_storage env.storage)]

/-! ### hardware_monitor.py — power readings -/

/-- One LibreHardwareMonitor sensor as seen by the reading helpers:
`stype` is the source's numeric `SensorType` (1 = Power, 2 = Temperature,
3 = Load); the `has*` flags are the source's substring tests on
`sensor.Name` (`"Package" in`, `"Total" in`, `"Core" in`); `value` is
`sensor.Value`. -/
structure Sensor where
  stype : Nat
  hasPackage : Bool
  hasTotal : Bool
  hasCore : Bool
  value : ℚ
deriving DecidableEq

/-- The `cpu_data` / `gpu_data` dictionaries of the reading helpers. -/
structure ComponentReading where
  power : ℚ
  utilization : ℚ
  temperature : ℚ
deriving DecidableEq

/-- The loop body of the sensor scan in `_get_cpu_power_lhm`: a Power sensor
named `"Package"` overwrites `power`, a Temperature sensor named `"Package"`
overwrites `temperature`, a Load sensor named `"Total"` overwrites
`utilization`. -/
def cpuScanStep (d : ComponentReading) (s : Sensor) : ComponentReading :=
  if s.stype = 1 then
    (if s.hasPackage then { d with power := s.value } else d)
  else if s.stype = 2 then
    (if s.hasPackage then { d with temperature := s.value } else d)
  else if s.stype = 3 then
    (if s.hasTotal then { d with utilization := s.value } else d)
  else d

/-- The sensor scan of `_get_cpu_power_lhm` over all CPU-hardware sensors in
iteration order, starting from `{power: 0, utilization: 0, temperature: 0}`
(each matching sensor overwrites the field; the last match wins). -/
def cpuSensorScan (sensors : List Sensor) : ComponentReading :=
  sensors.foldl cpuScanStep ⟨0, 0, 0⟩

/-- The loop body of the sensor scan in `_get_gpu_power_lhm` (power matches
`"Package"`, temperature and load match `"Core"`). -/
def gpuScanStep (d : ComponentReading) (s : Sensor) : ComponentReading :=
  if s.stype = 1 then
    (if s.hasPackage then { d with power := s.value } else d)
  else if s.stype = 2 then
    (if s.hasCore then { d with temperature := s.value } else d)
  else if s.stype = 3 then
    (if s.hasCore then { d with utilization := s.value } else d)
  else d

/-- The sensor scan of `_get_gpu_power_lhm`. -/
def gpuSensorScan (sensors : List Sensor) : ComponentReading :=
  sensors.foldl gpuScanStep ⟨0, 0, 0⟩

/-- Environment of `_get_cpu_power_lhm`: the CPU sensors, the value a
`psutil.cpu_percent()` call would return, the rated envelope
`self.components["cpu"]["max_power"]`, and whether the `try` body raises
(modelled as raising before any field is gathered). -/
structure CpuReadEnv where
  sensors : List Sensor
  psutil_cpu_percent : ℚ
  cpu_max_power : ℚ
  scanRaises : Bool
deriving DecidableEq

/-- Model of `HardwareMonitor._get_cpu_power_lhm`.  On the no-raise path: if the
scanned power is `0`, estimate from the scanned utilization when positive,
else from `psutil.cpu_percent()` (the source does not write the fallback
utilization back into `cpu_data`). -/
def get_cpu_power_lhm (env : CpuReadEnv) : ComponentReading :=
  if env.scanRaises then
    { power := env.cpu_max_power * (env.psutil_cpu_percent / 100) * CPU_UTILIZATION_SCALING
      utilization := env.psutil_cpu_percent
      temperature := 0 }
  else
    let d := cpuSensorScan env.sensors
    if d.power = 0 then
      let cpu_util := if 0 < d.utilization then d.utilization else env.psutil_cpu_percent
      { d with power := env.cpu_max_power * (cpu_util / 100) * CPU_UTILIZATION_SCALING }
    else d

/-- Environment of `_get_gpu_power_lhm`: the GPU sensors, the result of the
`nvidia-smi` utilization query (`none` = non-zero return code or the inner
`try` fails), the rated envelope, and whether the `try` body raises. -/
structure GpuReadEnv where
  sensors : List Sensor
  nvidia_util : Option ℚ
  gpu_max_power : ℚ
  scanRaises : Bool
deriving DecidableEq

/-- Model of `HardwareMonitor._get_gpu_power_lhm`.  On the no-raise path: if the
scanned power is `0`, the `nvidia-smi` utilization (when the query succeeds)
overwrites the scanned utilization; a still-zero utilization is replaced by
the 30% default; power is then estimated from the resulting utilization. -/
def get_gpu_power_lhm (env : GpuReadEnv) : ComponentReading :=
  if env.scanRaises then
    { power := env.gpu_max_power * (3 / 10) * GPU_UTILIZATION_SCALING
      utilization := 30
      temperature := 0 }
  else
    let d := gpuSensorScan env.sensors
    if d.power = 0 then
      let d1 := match env.nvidia_util with
        | some u => { d with utilization := u }
        | none => d
      let d2 := if d1.utilization = 0 then { d1 with utilization := 30 } else d1
      { d2 with power := env.gpu_max_power * (d2.utilization / 100) * GPU_UTILIZATION_SCALING }
    else d

/-- The rated envelopes `self.components[...]["max_power"]` used by the
reading path. -/
structure ComponentsInfo where
  cpu_max_power : ℚ
  gpu_max_power : ℚ
  motherboard_max_power : ℚ
  memory_max_power : ℚ
  storage_max_power : ℚ
deriving DecidableEq

/-- Environment of `_estimate_power_consumption`: the OS CPU utilization, the
`nvidia-smi` utilization query result (`none` = failure or non-zero return
code; note this path has no zero-to-30% replacement), and whether the body
raises unexpectedly (reaching the terminal `except`). -/
structure EstimateEnv where
  psutil_cpu_percent : ℚ
  nvidia_util : Option ℚ
  raisesUnexpected : Bool
deriving DecidableEq

/-- The `(total_power, component_data)` pair returned by the reading
functions; `component_data` keeps each entry's `"power"` value, keyed as in
the source. -/
structure PowerPair where
  total_power : ℚ
  component_powers : List (String × ℚ)
deriving DecidableEq

/-- Model of `HardwareMonitor._estimate_power_consumption`: utilization-scaled CPU and
GPU estimates, static envelopes for the rest, plus the idle addend; the
terminal `except` returns the fixed default `(100, cpu 50 / gpu 30 /
other 20)`. -/
def estimate_power_consumption (c : ComponentsInfo) (env : EstimateEnv) : PowerPair :=
  if env.raisesUnexpected then
    ⟨100, [("cpu", 50), ("gpu", 30), ("other", 20)]⟩
  else
    let cpu_power := c.cpu_max_power * (env.psutil_cpu_percent / 100) * CPU_UTILIZATION_SCALING
    let gpu_util := match env.nvidia_util with
      | some u => u
      | none => 30
    let gpu_power := c.gpu_max_power * (gpu_util / 100) * GPU_UTILIZATION_SCALING
    ⟨cpu_power + gpu_power + c.motherboard_max_power + c.memory_max_power
        + c.storage_max_power + DEFAULT_IDLE_POWER,
      [("cpu", cpu_power), ("gpu", gpu_power),
       ("motherboard", c.motherboard_max_power),
       ("memory", c.memory_max_power),
       ("storage", c.storage_max_power),
       ("idle", DEFAULT_IDLE_POWER)]⟩

/-- Environment of `get_power_readings`: whether LibreHardwareMonitor was
initialised, whether the hardware `Update()` refresh loop raises (sending
this call to the estimation fallback), the environments of the two LHM
helpers, and the environment of the estimation path. -/
structure MonitorEnv where
  lhm_initialized : Bool
  lhmUpdateRaises : Bool
  cpuSensors : List Sensor
  cpu_psutil_percent : ℚ
  cpuScanRaises : Bool
  gpuSensors : List Sensor
  gpu_nvidia_util : Option ℚ
  gpuScanRaises : Bool
  est : EstimateEnv
deriving DecidableEq

/-- Model of `HardwareMonitor.get_power_readings`. -/
def get_power_readings (c : ComponentsInfo) (env : MonitorEnv) : PowerPair :=
  if env.lhm_initialized then
    if env.lhmUpdateRaises then estimate_power_consumption c env.est
    else
      let cpu := get_cpu_power_lhm
        ⟨env.cpuSensors, env.cpu_psutil_percent, c.cpu_max_power, env.cpuScanRaises⟩
      let gpu := get_gpu_power_lhm
        ⟨env.gpuSensors, env.gpu_nvidia_util, c.gpu_max_power, env.gpuScanRaises⟩
      ⟨cpu.power + gpu.power + c.motherboard_max_power + c.memory_max_power
          + c.storage_max_power,
        [("cpu", cpu.power), ("gpu", gpu.power),
         ("motherboard", c.motherboard_max_power),
         ("memory", c.memory_max_power),
         ("storage", c.storage_max_power)]⟩
  else estimate_power_consumption c env.est

/-- Whether a `get_power_readings` call reaches the estimation path
(`_estimate_power_consumption`): LHM unavailable, or the refresh loop
raised. -/
def usesEstimationPath (env : MonitorEnv) : Bool :=
  !env.lhm_initialized || env.lhmUpdateRaises

/-! ### Spec-side definitions (for comparison with the source functions) -/

/-- The arithmetic mean of a list of values, as the specification words it. -/
def arithmeticMean (l : List ℚ) : ℚ := l.sum / l.length

/-- A "named package power sensor": a Power sensor (`SensorType == 1`) whose
name contains `"Package"`. -/
def isPackagePowerSensor (s : Sensor) : Bool :=
  decide (s.stype = 1) && s.hasPackage

/-- The value the claim's "named package power sensor" provides: the value of
the last such sensor in iteration order, `0` when none exists (the scan's
initial `power`). -/
def lastPackagePowerValue (sensors : List Sensor) : ℚ :=
  match sensors.reverse.find? isPackagePowerSensor with
  | some s => s.value
  | none => 0

/-! ### Helper lemmas about `List.foldl max` (Python's `max` over a
non-empty iterable) -/

theorem le_foldl_max (a : ℚ) (l : List ℚ) : a ≤ l.foldl max a := by
  induction l generalizing a with
  | nil => exact le_refl a
  | cons x xs ih => exact le_trans (le_max_left a x) (ih (max a x))

theorem mem_le_foldl_max (a b : ℚ) (l : List ℚ) (h : b ∈ l) :
    b ≤ l.foldl max a := by
  induction l generalizing a with
  | nil => cases h
  | cons x xs ih =>
    rcases List.mem_cons.mp h with rfl | hx
    · exact le_trans (le_max_right a b) (le_foldl_max (max a b) xs)
    · exact ih (max a x) hx

theorem foldl_max_mem (a : ℚ) (l : List ℚ) :
    l.foldl max a = a ∨ l.foldl max a ∈ l := by
  induction l generalizing a with
  | nil => exact Or.inl rfl
  | cons x xs ih =>
    rcases ih (max a x) with h | h
    · rcases max_choice a x with hm | hm
      · exact Or.inl (by rw [List.foldl_cons, h, hm])
      · exact Or.inr (by rw [List.foldl_cons, h, hm]; exact List.mem_cons_self x xs)
    · exact Or.inr (List.mem_cons_of_mem x h)

/-- The `max` of a non-empty list depends only on the multiset of its
elements. -/
theorem foldl_max_head_perm {x y : ℚ} {xs ys : List ℚ}
    (p : (x :: xs).Perm (y :: ys)) : xs.foldl max x = ys.foldl max y := by
  have hub : ∀ (a : ℚ) (l : List ℚ) (b : ℚ), b ∈ a :: l → b ≤ l.foldl max a := by
    intro a l b hb
    rcases List.mem_cons.mp hb with rfl | hb
    · exact le_foldl_max b l
    · exact mem_le_foldl_max a b l hb
  have hmem : ∀ (a : ℚ) (l : List ℚ), l.foldl max a ∈ a :: l := by
    intro a l
    rcases foldl_max_mem a l with h | h
    · rw [h]; exact List.mem_cons_self a l
    · exact List.mem_cons_of_mem a h
  apply le_antisymm
  · exact hub y ys _ (p.mem_iff.mp (hmem x xs))
  · exact hub x xs _ (p.symm.mem_iff.mp (hmem y ys))

/-- Shared helper: the aggregate row produced when the day's filtered
readings are non-empty, with every field explicit. -/
theorem aggregate_readings_eq_cons (today : String) (rows : List Reading)
    (r : Reading) (tl : List Reading)
    (h : rows.filter (fun x => x.date = today) = r :: tl) :
    aggregate_readings today rows = some
      { date := today
        avg_power := ((r :: tl).map Reading.total_power).sum / ((r :: tl).length : ℚ)
        max_power := maxTotalPower r tl
        total_energy :=
          ((r :: tl).map (fun x => x.total_power / 1000 * hours_per_reading)).sum
        cost := ((r :: tl).map Reading.cost).sum
        usage_hours := ((r :: tl).length : ℚ) * hours_per_reading } := by
  unfold aggregate_readings
  rw [h]

/-! ### Theorems about the settings store (claim C1) -/

/-- Claim C1 (counterexample).  The claim states that `set_kwh_cost` rejects
every value `v ≤ 0` and leaves the stored price unchanged.  On the code,
`set_kwh_cost 0` succeeds and overwrites the stored price `0.15` with `0`. -/
theorem set_kwh_cost_zero_overwrites :
    get_kwh_cost (set_kwh_cost ⟨some DEFAULT_KWH_COST⟩ 0) = 0 ∧
    get_kwh_cost (set_kwh_cost ⟨some DEFAULT_KWH_COST⟩ 0) ≠ DEFAULT_KWH_COST := by
  refine ⟨rfl, ?_⟩
  norm_num [get_kwh_cost, set_kwh_cost, DEFAULT_KWH_COST]

/-- Claim C1 (amended).  `DataStorage.set_kwh_cost` performs no validation:
whenever the `"kwh_cost"` settings row exists (as it always does after
`_create_tables` inserts the default), `set_kwh_cost v` stores `v` for every
value `v` — non-positive values included — and `get_kwh_cost` then returns
`v` (in particular `set_kwh_cost 0.20` followed by `get_kwh_cost` returns
`0.20`).  When the row is absent, the `UPDATE` matches zero rows without
raising and the store is left unchanged. -/
theorem set_then_get_kwh_cost :
    (∀ (s : SettingsStore) (v : ℚ), s.kwh_cost.isSome = true →
      get_kwh_cost (set_kwh_cost s v) = v) ∧
    (∀ v : ℚ, set_kwh_cost ⟨none⟩ v = ⟨none⟩) := by
  constructor
  · intro s v h
    cases hs : s.kwh_cost with
    | none => rw [hs] at h; simp at h
    | some c => simp [set_kwh_cost, get_kwh_cost, hs]
  · intro v
    rfl

/-- Claim C1 (witness).  Starting from the freshly created store (row present
with the 0.15 default), `set_kwh_cost 0.20` then `get_kwh_cost` returns
`0.20`. -/
theorem set_then_get_kwh_cost_witness :
    get_kwh_cost (set_kwh_cost ⟨some DEFAULT_KWH_COST⟩ (1 / 5)) = 1 / 5 :=
  set_then_get_kwh_cost.1 ⟨some DEFAULT_KWH_COST⟩ (1 / 5) rfl

/-! ### Theorems about daily aggregation (claims C4, C5, C6) -/

/-- Claim C4.  (1) The daily aggregate computed by
`_update_daily_aggregation` depends only on the multiset of the day's
persisted readings, so after the last `save_power_reading` of a day it is
identical for any delivery order of that day's samples.  (2) The
`INSERT OR REPLACE` upsert leaves exactly one `daily_power` row for the
recomputed date: the new aggregate replaces any prior row. -/
theorem aggregate_perm_invariant_and_upsert_unique :
    (∀ (today : String) (rows₁ rows₂ : List Reading), rows₁.Perm rows₂ →
      aggregate_readings today rows₁ = aggregate_readings today rows₂) ∧
    (∀ (table : List DailyAggregate) (a : DailyAggregate),
      (upsert_daily table a).filter (fun x => x.date = a.date) = [a]) := by
  constructor
  · intro today rows₁ rows₂ h
    have hf : (rows₁.filter (fun r => r.date = today)).Perm
        (rows₂.filter (fun r => r.date = today)) := h.filter _
    unfold aggregate_readings
    cases h₁ : rows₁.filter (fun r => r.date = today) with
    | nil =>
      rw [h₁] at hf
      have h₂ : rows₂.filter (fun r => r.date = today) = [] := hf.symm.eq_nil
      rw [h₂]
    | cons r tl =>
      cases h₂ : rows₂.filter (fun r => r.date = today) with
      | nil =>
        rw [h₁, h₂] at hf
        exact absurd hf.eq_nil (by simp)
      | cons r' tl' =>
        rw [h₁, h₂] at hf
        have hmap : ((r :: tl).map Reading.total_power).Perm
            ((r' :: tl').map Reading.total_power) := hf.map _
        have hcost : ((r :: tl).map Reading.cost).Perm
            ((r' :: tl').map Reading.cost) := hf.map _
        have hen : ((r :: tl).map
              (fun x => x.total_power / 1000 * hours_per_reading)).Perm
            ((r' :: tl').map
              (fun x => x.total_power / 1000 * hours_per_reading)) := hf.map _
        simp only [Option.some.injEq, DailyAggregate.mk.injEq]
        refine ⟨trivial, ?_, ?_, ?_, ?_, ?_⟩
        · rw [hmap.sum_eq, hf.length_eq]
        · exact foldl_max_head_perm (by simpa using hmap)
        · exact hen.sum_eq
        · exact hcost.sum_eq
        · rw [hf.length_eq]
  · intro table a
    simp only [upsert_daily, List.filter_cons, decide_eq_true_eq]
    rw [if_pos trivial]
    congr 1
    rw [List.filter_filter]
    apply List.filter_eq_nil_iff.mpr
    intro x _
    simp only [Bool.and_eq_true, decide_eq_true_eq, ne_eq]
    tauto

/-- Claim C4 (witness).  Two concrete deliveries of the same two same-day
samples in opposite orders yield the same aggregate, and upserting over an
existing row for the date leaves exactly that one row. -/
theorem aggregate_perm_invariant_and_upsert_unique_witness :
    aggregate_readings "2026-10-12"
        [⟨"2026-10-12", 100, 15 / 1000⟩, ⟨"2026-10-12", 200, 30 / 1000⟩] =
      aggregate_readings "2026-10-12"
        [⟨"2026-10-12", 200, 30 / 1000⟩, ⟨"2026-10-12", 100, 15 / 1000⟩] ∧
    (upsert_daily [⟨"2026-10-12", 1, 1, 1, 1, 1⟩] ⟨"2026-10-12", 2, 2, 2, 2, 2⟩).filter
        (fun x => x.date = "2026-10-12") = [⟨"2026-10-12", 2, 2, 2, 2, 2⟩] := by
  constructor
  · exact aggregate_perm_invariant_and_upsert_unique.1 "2026-10-12" _ _
      (List.Perm.swap _ _ _)
  · exact aggregate_perm_invariant_and_upsert_unique.2
      [⟨"2026-10-12", 1, 1, 1, 1, 1⟩] ⟨"2026-10-12", 2, 2, 2, 2, 2⟩

/-- Claim C5.  For a date with at least one persisted reading, the computed
aggregate's `avg_power` is the arithmetic mean of that date's `total_power`
values, and `max_power` is their maximum (a member of the list that bounds
every element). -/
theorem aggregate_avg_mean_and_max_greatest (today : String) (rows : List Reading)
    (a : DailyAggregate) (h : aggregate_readings today rows = some a) :
    a.avg_power =
      arithmeticMean ((rows.filter (fun x => x.date = today)).map Reading.total_power) ∧
    a.max_power ∈ (rows.filter (fun x => x.date = today)).map Reading.total_power ∧
    ∀ v ∈ (rows.filter (fun x => x.date = today)).map Reading.total_power,
      v ≤ a.max_power := by
  cases hf : rows.filter (fun x => x.date = today) with
  | nil => rw [aggregate_readings, hf] at h; cases h
  | cons r tl =>
    rw [aggregate_readings_eq_cons today rows r tl hf] at h
    obtain rfl := (Option.some.inj h).symm
    refine ⟨?_, ?_, ?_⟩
    · simp [arithmeticMean]
    · simp only [List.map_cons]
      rcases foldl_max_mem r.total_power (tl.map Reading.total_power) with hm | hm
      · rw [maxTotalPower, hm]; exact List.mem_cons_self _ _
      · exact List.mem_cons_of_mem _ hm
    · intro v hv
      simp only [List.map_cons] at hv
      rcases List.mem_cons.mp hv with rfl | hv
      · exact le_foldl_max _ _
      · exact mem_le_foldl_max _ _ _ hv

/-- Claim C5 (witness).  A concrete day with readings 100 W and 200 W:
`avg_power = 150`, `max_power = 200`. -/
theorem aggregate_avg_mean_and_max_greatest_witness :
    (150 : ℚ) =
      arithmeticMean (([(⟨"2026-10-12", 100, 3 / 200⟩ : Reading),
          ⟨"2026-10-12", 200, 3 / 100⟩].filter
            (fun x => x.date = "2026-10-12")).map Reading.total_power) ∧
    (200 : ℚ) ∈ ([(⟨"2026-10-12", 100, 3 / 200⟩ : Reading),
          ⟨"2026-10-12", 200, 3 / 100⟩].filter
            (fun x => x.date = "2026-10-12")).map Reading.total_power ∧
    ∀ v ∈ ([(⟨"2026-10-12", 100, 3 / 200⟩ : Reading),
          ⟨"2026-10-12", 200, 3 / 100⟩].filter
            (fun x => x.date = "2026-10-12")).map Reading.total_power,
      v ≤ (200 : ℚ) := by
  have h : aggregate_readings "2026-10-12"
      [⟨"2026-10-12", 100, 3 / 200⟩, ⟨"2026-10-12", 200, 3 / 100⟩] =
      some ⟨"2026-10-12", 150, 200, 1 / 2400, 9 / 200, 2 / 720⟩ := by
    rw [aggregate_readings_eq_cons "2026-10-12" _
      ⟨"2026-10-12", 100, 3 / 200⟩ [⟨"2026-10-12", 200, 3 / 100⟩] (by simp)]
    simp [maxTotalPower, hours_per_reading, DEFAULT_POLLING_INTERVAL]
    norm_num
  exact aggregate_avg_mean_and_max_greatest "2026-10-12" _ _ h

/-- Claim C6.  For a date with `n ≥ 1` persisted readings, `total_energy` is the
sum over the readings of `(total_power/1000) * (DEFAULT_POLLING_INTERVAL/3600)`
and `usage_hours = n * (DEFAULT_POLLING_INTERVAL/3600)`. -/
theorem aggregate_energy_and_usage_hours (today : String) (rows : List Reading)
    (a : DailyAggregate) (h : aggregate_readings today rows = some a) :
    a.total_energy =
      ((rows.filter (fun x => x.date = today)).map
        (fun r => r.total_power / 1000 * (DEFAULT_POLLING_INTERVAL / 3600))).sum ∧
    a.usage_hours =
      ((rows.filter (fun x => x.date = today)).length : ℚ)
        * (DEFAULT_POLLING_INTERVAL / 3600) := by
  cases hf : rows.filter (fun x => x.date = today) with
  | nil => rw [aggregate_readings, hf] at h; cases h
  | cons r tl =>
    rw [aggregate_readings_eq_cons today rows r tl hf] at h
    obtain rfl := (Option.some.inj h).symm
    exact ⟨rfl, rfl⟩

/-- Claim C6 (witness).  One 100 W reading: `total_energy = 100/1000 * 5/3600`
and `usage_hours = 1 * 5/3600`. -/
theorem aggregate_energy_and_usage_hours_witness :
    (1 / 7200 : ℚ) =
      (([(⟨"2026-10-12", 100, 3 / 200⟩ : Reading)].filter
          (fun x => x.date = "2026-10-12")).map
        (fun r => r.total_power / 1000 * (DEFAULT_POLLING_INTERVAL / 3600))).sum ∧
    (1 / 720 : ℚ) =
      (([(⟨"2026-10-12", 100, 3 / 200⟩ : Reading)].filter
          (fun x => x.date = "2026-10-12")).length : ℚ)
        * (DEFAULT_POLLING_INTERVAL / 3600) := by
  have h : aggregate_readings "2026-10-12" [⟨"2026-10-12", 100, 3 / 200⟩] =
      some ⟨"2026-10-12", 100, 100, 1 / 7200, 3 / 200, 1 / 720⟩ := by
    rw [aggregate_readings_eq_cons "2026-10-12" _ ⟨"2026-10-12", 100, 3 / 200⟩ []
      (by simp)]
    simp [maxTotalPower, hours_per_reading, DEFAULT_POLLING_INTERVAL]
    norm_num
  exact aggregate_energy_and_usage_hours "2026-10-12" _ _ h

/-- Claim C9.  (1) `save_power_reading` stores each reading with
`cost = (total_power/1000) * price` — the cost of running at that power for a
full hour.  (2) The daily aggregate's `cost` is the sum of these per-reading
one-hour costs.  (3) When every reading of the date was costed at the same
price, the daily `cost` equals `720 * (total_energy * price)`.  (4) Hence for
a day with positive energy and price, `cost ≠ total_energy * price`. -/
theorem daily_cost_is_720_times_energy_cost :
    (∀ (today : String) (s : StorageState) (tp price : ℚ),
      (save_power_reading today s tp (some price)).readings =
        s.readings ++ [⟨today, tp, tp / 1000 * price⟩]) ∧
    (∀ (today : String) (rows : List Reading) (a : DailyAggregate),
      aggregate_readings today rows = some a →
      a.cost = ((rows.filter (fun x => x.date = today)).map Reading.cost).sum) ∧
    (∀ (today : String) (rows : List Reading) (a : DailyAggregate) (price : ℚ),
      aggregate_readings today rows = some a →
      (∀ r ∈ rows.filter (fun x => x.date = today),
        r.cost = r.total_power / 1000 * price) →
      a.cost = 720 * (a.total_energy * price)) ∧
    (∀ (today : String) (rows : List Reading) (a : DailyAggregate) (price : ℚ),
      aggregate_readings today rows = some a →
      (∀ r ∈ rows.filter (fun x => x.date = today),
        r.cost = r.total_power / 1000 * price) →
      0 < a.total_energy → 0 < price →
      a.cost ≠ a.total_energy * price) := by
  have key : ∀ (today : String) (rows : List Reading) (a : DailyAggregate) (price : ℚ),
      aggregate_readings today rows = some a →
      (∀ r ∈ rows.filter (fun x => x.date = today),
        r.cost = r.total_power / 1000 * price) →
      a.cost = 720 * (a.total_energy * price) := by
    intro today rows a price h hc
    cases hf : rows.filter (fun x => x.date = today) with
    | nil => rw [aggregate_readings, hf] at h; cases h
    | cons r tl =>
      rw [aggregate_readings_eq_cons today rows r tl hf] at h
      obtain rfl := (Option.some.inj h).symm
      rw [hf] at hc
      have hmap : (r :: tl).map Reading.cost =
          (r :: tl).map (fun x => x.total_power / 1000 * price) :=
        List.map_congr_left hc
      simp only [hmap]
      have h1 : ((r :: tl).map (fun x => x.total_power / 1000 * price)).sum =
          ((r :: tl).map (fun x => x.total_power / 1000)).sum * price :=
        List.sum_map_mul_right _ _ _
      have h2 : ((r :: tl).map
            (fun x => x.total_power / 1000 * hours_per_reading)).sum =
          ((r :: tl).map (fun x => x.total_power / 1000)).sum * hours_per_reading :=
        List.sum_map_mul_right _ _ _
      rw [h1, h2, hours_per_reading, DEFAULT_POLLING_INTERVAL]
      ring
  refine ⟨?_, ?_, key, ?_⟩
  · intro today s tp price
    show (update_daily_aggregation today _).readings = _
    rw [update_daily_aggregation]
    split <;> rfl
  · intro today rows a h
    cases hf : rows.filter (fun x => x.date = today) with
    | nil => rw [aggregate_readings, hf] at h; cases h
    | cons r tl =>
      rw [aggregate_readings_eq_cons today rows r tl hf] at h
      obtain rfl := (Option.some.inj h).symm
      rfl
  · intro today rows a price h hc hE hp
    have := key today rows a price h hc
    intro heq
    rw [heq] at this
    have hEp : 0 < a.total_energy * price := mul_pos hE hp
    nlinarith
/-- Claim C9 (witness).  A single 1000 W reading costed at price 0.15: the
stored reading's cost is `0.15`, the daily cost is `0.15`, the daily energy
is `1/720` kWh, and `0.15 = 720 * (1/720 * 0.15) ≠ 1/720 * 0.15`. -/
theorem daily_cost_is_720_times_energy_cost_witness :
    ((save_power_reading "2026-10-12" ⟨⟨some (15 / 100)⟩, [], []⟩ 1000
        (some (15 / 100))).readings =
      [] ++ [⟨"2026-10-12", 1000, 1000 / 1000 * (15 / 100)⟩]) ∧
    ((3 / 20 : ℚ) =
      (([(⟨"2026-10-12", 1000, 3 / 20⟩ : Reading)].filter
          (fun x => x.date = "2026-10-12")).map Reading.cost).sum) ∧
    ((3 / 20 : ℚ) = 720 * ((1 / 720 : ℚ) * (15 / 100))) ∧
    ((3 / 20 : ℚ) ≠ (1 / 720 : ℚ) * (15 / 100)) := by
  have h : aggregate_readings "2026-10-12" [⟨"2026-10-12", 1000, 3 / 20⟩] =
      some ⟨"2026-10-12", 1000, 1000, 1 / 720, 3 / 20, 1 / 720⟩ := by
    rw [aggregate_readings_eq_cons "2026-10-12" _ ⟨"2026-10-12", 1000, 3 / 20⟩ []
      (by simp)]
    simp [maxTotalPower, hours_per_reading, DEFAULT_POLLING_INTERVAL]
    norm_num
  have hc : ∀ r ∈ [(⟨"2026-10-12", 1000, 3 / 20⟩ : Reading)].filter
      (fun x => x.date = "2026-10-12"),
      r.cost = r.total_power / 1000 * (15 / 100) := by
    intro r hr
    have hfil : [(⟨"2026-10-12", 1000, 3 / 20⟩ : Reading)].filter
        (fun x => x.date = "2026-10-12") = [⟨"2026-10-12", 1000, 3 / 20⟩] := by
      simp
    rw [hfil] at hr
    obtain rfl := List.mem_singleton.mp hr
    norm_num
  refine ⟨daily_cost_is_720_times_energy_cost.1 "2026-10-12" ⟨⟨some (15 / 100)⟩, [], []⟩
      1000 (15 / 100), ?_, ?_, ?_⟩
  · have := daily_cost_is_720_times_energy_cost.2.1 "2026-10-12"
      [⟨"2026-10-12", 1000, 3 / 20⟩] _ h
    exact this
  · have := daily_cost_is_720_times_energy_cost.2.2.1 "2026-10-12"
      [⟨"2026-10-12", 1000, 3 / 20⟩] _ (15 / 100) h hc
    simpa using this
  · have := daily_cost_is_720_times_energy_cost.2.2.2 "2026-10-12"
      [⟨"2026-10-12", 1000, 3 / 20⟩] _ (15 / 100) h hc (by norm_num) (by norm_num)
    simpa using this

/-- Shared helper: unrolling `monitor_session`'s fold. -/
theorem monitor_session_unfold (today : String) (interval : ℚ)
    (powers : List ℚ) : ∀ (t : ℚ) (s : StorageState),
    powers.foldl
        (fun acc tp => (acc.1 + interval, save_power_reading today acc.2 tp none))
        (t, s) =
      (t + powers.length * interval,
        powers.foldl (fun s tp => save_power_reading today s tp none) s) := by
  induction powers with
  | nil => intro t s; simp
  | cons p ps ih =>
    intro t s
    rw [List.foldl_cons, ih, List.foldl_cons]
    dsimp only
    rw [Prod.mk.injEq]
    refine ⟨?_, rfl⟩
    simp only [List.length_cons]
    push_cast
    ring

/-- Claim C10.  The polling interval passed to `start_monitoring` only paces the
loop (the session's elapsed sleep time is `n * interval`); the storage state —
including every daily aggregate, whose energy and usage-hours are computed
with the constant `config.DEFAULT_POLLING_INTERVAL` — is identical to that of
a session run at the default 5-second interval. -/
theorem monitoring_interval_does_not_affect_aggregates (today : String)
    (interval : ℚ) (powers : List ℚ) (s0 : StorageState) :
    (monitor_session today interval powers s0).1 = powers.length * interval ∧
    (monitor_session today interval powers s0).2 =
      (monitor_session today DEFAULT_POLLING_INTERVAL powers s0).2 := by
  constructor
  · rw [monitor_session, monitor_session_unfold, zero_add]
  · rw [monitor_session, monitor_session, monitor_session_unfold,
      monitor_session_unfold]

/-! ### Theorems about `get_power_readings` (claims C2, C3) -/

/-- Claim C2.  Every failure point of `get_power_readings` is handled: for every
environment (any combination of LHM availability, refresh failure, helper
failure and estimation failure) the call returns a pair with a non-empty
component breakdown, and when the estimation path is reached and even it
raises unexpectedly, the result is the fixed safe default — 100 W total split
cpu = 50, gpu = 30, other = 20. -/
theorem get_power_readings_total_and_safe_default (c : ComponentsInfo)
    (env : MonitorEnv) :
    (get_power_readings c env).component_powers ≠ [] ∧
    (usesEstimationPath env = true → env.est.raisesUnexpected = true →
      get_power_readings c env =
        ⟨100, [("cpu", 50), ("gpu", 30), ("other", 20)]⟩) := by
  cases h1 : env.lhm_initialized <;> cases h2 : env.lhmUpdateRaises <;>
    cases h3 : env.est.raisesUnexpected <;>
      simp [get_power_readings, usesEstimationPath, estimate_power_consumption,
        h1, h2, h3]

/-- Claim C2 (witness).  With LHM unavailable and the estimation body raising,
the result is exactly the documented default sample. -/
theorem get_power_readings_total_and_safe_default_witness :
    (get_power_readings ⟨65, 150, 30, 10, 10⟩
        ⟨false, false, [], 0, false, [], none, false, ⟨0, none, true⟩⟩).component_powers
      ≠ [] ∧
    get_power_readings ⟨65, 150, 30, 10, 10⟩
        ⟨false, false, [], 0, false, [], none, false, ⟨0, none, true⟩⟩ =
      ⟨100, [("cpu", 50), ("gpu", 30), ("other", 20)]⟩ := by
  have h := get_power_readings_total_and_safe_default ⟨65, 150, 30, 10, 10⟩
    ⟨false, false, [], 0, false, [], none, false, ⟨0, none, true⟩⟩
  exact ⟨h.1, h.2 rfl rfl⟩

/-- Claim C3.  For every sample, `total_power` equals the sum of the
per-component power values of the returned `component_data`; the
`DEFAULT_IDLE_POWER` addend appears (as the `"idle"` entry) only on the
estimation path — the direct-sensor path has no `"idle"` entry, and the
non-failing estimation path carries `("idle", DEFAULT_IDLE_POWER)`. -/
theorem total_power_eq_sum_of_components (c : ComponentsInfo)
    (env : MonitorEnv) :
    (get_power_readings c env).total_power =
      ((get_power_readings c env).component_powers.map Prod.snd).sum ∧
    (usesEstimationPath env = false →
      ∀ p ∈ (get_power_readings c env).component_powers, p.1 ≠ "idle") ∧
    (usesEstimationPath env = true → env.est.raisesUnexpected = false →
      ("idle", DEFAULT_IDLE_POWER) ∈ (get_power_readings c env).component_powers) := by
  refine ⟨?_, ?_, ?_⟩
  · cases h1 : env.lhm_initialized <;> cases h2 : env.lhmUpdateRaises <;>
      cases h3 : env.est.raisesUnexpected <;>
        simp [get_power_readings, estimate_power_consumption, h1, h2, h3] <;>
          ring
  · intro hpath p hp
    rw [usesEstimationPath] at hpath
    have h1 : env.lhm_initialized = true := by
      cases hl : env.lhm_initialized
      · rw [hl] at hpath; simp at hpath
      · rfl
    have h2 : env.lhmUpdateRaises = false := by
      cases hl : env.lhmUpdateRaises
      · rfl
      · rw [hl] at hpath; simp at hpath
    rw [get_power_readings, if_pos h1, if_neg (by simp [h2])] at hp
    simp only [List.mem_cons, List.not_mem_nil, or_false] at hp
    rcases hp with rfl | rfl | rfl | rfl | rfl <;> simp
  · intro hpath hraise
    cases h1 : env.lhm_initialized
    · rw [get_power_readings, if_neg (by simp [h1]),
        estimate_power_consumption, if_neg (by simp [hraise])]
      simp
    · have h2 : env.lhmUpdateRaises = true := by
        rw [usesEstimationPath, h1] at hpath
        simpa using hpath
      rw [get_power_readings, if_pos h1, if_pos h2,
        estimate_power_consumption, if_neg (by simp [hraise])]
      simp

/-- Claim C3 (witness).  On a concrete estimation-path call the idle entry is
present, and on a concrete direct-sensor call no idle entry exists. -/
theorem total_power_eq_sum_of_components_witness :
    ((get_power_readings ⟨65, 150, 30, 10, 10⟩
        ⟨false, false, [], 0, false, [], none, false, ⟨50, none, false⟩⟩).total_power =
      ((get_power_readings ⟨65, 150, 30, 10, 10⟩
        ⟨false, false, [], 0, false, [], none, false,
          ⟨50, none, false⟩⟩).component_powers.map Prod.snd).sum) ∧
    (("idle", DEFAULT_IDLE_POWER) ∈
      (get_power_readings ⟨65, 150, 30, 10, 10⟩
        ⟨false, false, [], 0, false, [], none, false,
          ⟨50, none, false⟩⟩).component_powers) ∧
    (∀ p ∈ (get_power_readings ⟨65, 150, 30, 10, 10⟩
        ⟨true, false, [⟨1, true, false, false, 40⟩], 0, false,
          [⟨1, true, false, false, 60⟩], none, false,
          ⟨0, none, false⟩⟩).component_powers, p.1 ≠ "idle") := by
  refine ⟨?_, ?_, ?_⟩
  · exact (total_power_eq_sum_of_components ⟨65, 150, 30, 10, 10⟩
      ⟨false, false, [], 0, false, [], none, false, ⟨50, none, false⟩⟩).1
  · exact (total_power_eq_sum_of_components ⟨65, 150, 30, 10, 10⟩
      ⟨false, false, [], 0, false, [], none, false, ⟨50, none, false⟩⟩).2.2 rfl rfl
  · exact (total_power_eq_sum_of_components ⟨65, 150, 30, 10, 10⟩
      ⟨true, false, [⟨1, true, false, false, 40⟩], 0, false,
        [⟨1, true, false, false, 60⟩], none, false, ⟨0, none, false⟩⟩).2.1 rfl

/-! ### Theorems about hardware detection (claim C7) -/

/-- Claim C7 (counterexample).  The claim states that a sub-detector that
raises an internal error yields its built-in default record with the default
config wattage.  In `_detect_gpu`, when `nvidia-smi` reports a 320 W power
limit and the later (not inner-wrapped) LibreHardwareMonitor block raises,
the outer `except` returns the partially refined record: the GPU entry of
`detect_hardware` carries `max_power = 320`, not `DEFAULT_GPU_TDP = 150`. -/
theorem detect_gpu_failure_keeps_partial_refinement :
    (detect_hardware
        ⟨⟨false, .skip⟩, ⟨some (some 320), .raises⟩, ⟨false⟩, ⟨false, none⟩,
          ⟨false, []⟩⟩).lookup "gpu" = some ⟨"gpu", 320⟩ ∧
    (⟨"gpu", (320 : ℚ)⟩ : Component) ≠ ⟨"gpu", DEFAULT_GPU_TDP⟩ := by
  refine ⟨rfl, ?_⟩
  rw [DEFAULT_GPU_TDP]
  intro h
  have := congrArg Component.max_power h
  norm_num at this

/-- Claim C7 (amended).  `detect_hardware` always returns a mapping containing
exactly the five component types in order and never propagates a
sub-detector's failure.  Each sub-detector's result depends only on its own
probes, so a failure in one leaves the other four results unchanged.  A
sub-detector whose body fails before any successful refinement yields its
built-in default record with the config default wattage (for GPU, a power
limit already obtained from `nvidia-smi` before the failing block is
retained — the deviation the counterexample exhibits). -/
theorem detect_hardware_isolated_with_defaults :
    (∀ env : DetectEnv,
      (detect_hardware env).map Prod.fst =
        ["cpu", "gpu", "motherboard", "memory", "storage"]) ∧
    (∀ env₁ env₂ : DetectEnv, env₁.cpu = env₂.cpu →
      (detect_hardware env₁).lookup "cpu" = (detect_hardware env₂).lookup "cpu") ∧
    (∀ env₁ env₂ : DetectEnv, env₁.gpu = env₂.gpu →
      (detect_hardware env₁).lookup "gpu" = (detect_hardware env₂).lookup "gpu") ∧
    (∀ env₁ env₂ : DetectEnv, env₁.mb = env₂.mb →
      (detect_hardware env₁).lookup "motherboard" =
        (detect_hardware env₂).lookup "motherboard") ∧
    (∀ env₁ env₂ : DetectEnv, env₁.mem = env₂.mem →
      (detect_hardware env₁).lookup "memory" =
        (detect_hardware env₂).lookup "memory") ∧
    (∀ env₁ env₂ : DetectEnv, env₁.storage = env₂.storage →
      (detect_hardware env₁).lookup "storage" =
        (detect_hardware env₂).lookup "storage") ∧
    (detect_cpu ⟨false, .raises⟩ = ⟨"cpu", DEFAULT_CPU_TDP⟩ ∧
     detect_gpu ⟨none, .raises⟩ = ⟨"gpu", DEFAULT_GPU_TDP⟩ ∧
     detect_motherboard ⟨true⟩ = ⟨"motherboard", DEFAULT_MOTHERBOARD_POWER⟩ ∧
     detect_memory ⟨true, none⟩ = ⟨"memory", DEFAULT_RAM_PER_STICK * 2⟩ ∧
     detect_storage ⟨true, []⟩ = ⟨"storage", 0⟩) := by
  refine ⟨fun env => rfl, ?_, ?_, ?_, ?_, ?_, rfl, rfl, rfl, rfl, rfl⟩
  · intro env₁ env₂ h
    show some (detect_cpu env₁.cpu) = some (detect_cpu env₂.cpu)
    rw [h]
  · intro env₁ env₂ h
    show some (detect_gpu env₁.gpu) = some (detect_gpu env₂.gpu)
    rw [h]
  · intro env₁ env₂ h
    show some (detect_motherboard env₁.mb) = some (detect_motherboard env₂.mb)
    rw [h]
  · intro env₁ env₂ h
    show some (detect_memory env₁.mem) = some (detect_memory env₂.mem)
    rw [h]
  · intro env₁ env₂ h
    show some (detect_storage env₁.storage) = some (detect_storage env₂.storage)
    rw [h]

/-- Claim C7 (witness).  Forcing the GPU sub-detector to fail leaves the other
four results identical to the fully healthy run. -/
theorem detect_hardware_isolated_with_defaults_witness :
    (detect_hardware
        ⟨⟨false, .skip⟩, ⟨none, .raises⟩, ⟨false⟩, ⟨false, none⟩,
          ⟨false, [true]⟩⟩).map Prod.fst =
      ["cpu", "gpu", "motherboard", "memory", "storage"] ∧
    (detect_hardware
        ⟨⟨false, .skip⟩, ⟨none, .raises⟩, ⟨false⟩, ⟨false, none⟩,
          ⟨false, [true]⟩⟩).lookup "cpu" =
      (detect_hardware
        ⟨⟨false, .skip⟩, ⟨none, .skip⟩, ⟨false⟩, ⟨false, none⟩,
          ⟨false, [true]⟩⟩).lookup "cpu" ∧
    (detect_hardware
        ⟨⟨false, .skip⟩, ⟨none, .raises⟩, ⟨false⟩, ⟨false, none⟩,
          ⟨false, [true]⟩⟩).lookup "storage" =
      (detect_hardware
        ⟨⟨false, .skip⟩, ⟨none, .skip⟩, ⟨false⟩, ⟨false, none⟩,
          ⟨false, [true]⟩⟩).lookup "storage" := by
  refine ⟨detect_hardware_isolated_with_defaults.1 _, ?_, ?_⟩
  · exact detect_hardware_isolated_with_defaults.2.1
      ⟨⟨false, .skip⟩, ⟨none, .raises⟩, ⟨false⟩, ⟨false, none⟩, ⟨false, [true]⟩⟩
      ⟨⟨false, .skip⟩, ⟨none, .skip⟩, ⟨false⟩, ⟨false, none⟩, ⟨false, [true]⟩⟩ rfl
  · exact detect_hardware_isolated_with_defaults.2.2.2.2.2.1
      ⟨⟨false, .skip⟩, ⟨none, .raises⟩, ⟨false⟩, ⟨false, none⟩, ⟨false, [true]⟩⟩
      ⟨⟨false, .skip⟩, ⟨none, .skip⟩, ⟨false⟩, ⟨false, none⟩, ⟨false, [true]⟩⟩ rfl

/-! ### Theorems about the direct-sensor reading path (claim C8) -/

/-- Shared helper: one CPU scan step changes `power` exactly when the sensor
is a package power sensor, in which case its value overwrites it. -/
theorem cpuScanStep_power (d : ComponentReading) (s : Sensor) :
    (cpuScanStep d s).power =
      if isPackagePowerSensor s then s.value else d.power := by
  rw [cpuScanStep, isPackagePowerSensor]
  by_cases h1 : s.stype = 1
  · by_cases h2 : s.hasPackage = true <;> simp [h1, h2]
  · by_cases h2 : s.stype = 2
    · by_cases h3 : s.hasPackage = true <;> simp [h1, h2, h3]
    · by_cases h3 : s.stype = 3
      · by_cases h4 : s.hasTotal = true <;> simp [h1, h2, h3, h4]
      · simp [h1, h2, h3]

/-- Shared helper: the GPU scan step behaves identically on `power`. -/
theorem gpuScanStep_power (d : ComponentReading) (s : Sensor) :
    (gpuScanStep d s).power =
      if isPackagePowerSensor s then s.value else d.power := by
  rw [gpuScanStep, isPackagePowerSensor]
  by_cases h1 : s.stype = 1
  · by_cases h2 : s.hasPackage = true <;> simp [h1, h2]
  · by_cases h2 : s.stype = 2
    · by_cases h3 : s.hasCore = true <;> simp [h1, h2, h3]
    · by_cases h3 : s.stype = 3
      · by_cases h4 : s.hasCore = true <;> simp [h1, h2, h3, h4]
      · simp [h1, h2, h3]

/-- Shared helper: folding a power-step over the sensors yields the value of
the last package power sensor, or the initial `power` when none exists. -/
theorem foldl_power_step_eq_last (step : ComponentReading → Sensor → ComponentReading)
    (hstep : ∀ d s, (step d s).power =
      if isPackagePowerSensor s then s.value else d.power)
    (l : List Sensor) : ∀ d : ComponentReading,
    (l.foldl step d).power =
      (match l.reverse.find? isPackagePowerSensor with
        | some s => s.value
        | none => d.power) := by
  induction l with
  | nil => intro d; rfl
  | cons s t ih =>
    intro d
    rw [List.foldl_cons, ih, List.reverse_cons, List.find?_append]
    cases hf : t.reverse.find? isPackagePowerSensor with
    | some u => rfl
    | none =>
      show _ = (match [s].find? isPackagePowerSensor with
        | some u => u.value
        | none => d.power)
      by_cases hp : isPackagePowerSensor s = true
      · rw [List.find?_cons_of_pos _ hp, hstep, if_pos hp]
      · rw [List.find?_cons_of_neg _ (by simp [hp]), hstep, if_neg (by simp [hp])]
        rfl

/-- Claim C8 (counterexample).  The claim says a found package power sensor's
value is used directly.  With a CPU package power sensor reading `0` (and a
Total load sensor reading `0`), the code does not use the sensor value `0`:
it falls back to utilization-based estimation from `psutil` (50% here),
returning `65 * 0.5 * 0.7 = 22.75 ≠ 0`. -/
theorem package_sensor_zero_not_used_directly :
    ([(⟨1, true, false, false, 0⟩ : Sensor),
        ⟨3, false, true, false, 0⟩].any isPackagePowerSensor) = true ∧
    (get_cpu_power_lhm
        ⟨[⟨1, true, false, false, 0⟩, ⟨3, false, true, false, 0⟩], 50,
          DEFAULT_CPU_TDP, false⟩).power =
      DEFAULT_CPU_TDP * (50 / 100) * CPU_UTILIZATION_SCALING ∧
    DEFAULT_CPU_TDP * (50 / 100) * CPU_UTILIZATION_SCALING ≠ 0 := by
  refine ⟨rfl, rfl, ?_⟩
  rw [DEFAULT_CPU_TDP, CPU_UTILIZATION_SCALING]
  norm_num

/-- Claim C8 (amended).  In the direct-sensor path, for each of CPU and GPU:
the scan records the value of the *last* named package power sensor (`0` when
none exists); if that recorded power is *non-zero* it is used directly; if it
is zero — the sensor absent *or* reading 0 W — the component's power is
`rated_envelope * (utilization/100) * scaling_factor`, where the CPU
utilization is the scanned load-sensor value when positive and otherwise the
OS-level `psutil` query, and the GPU utilization is the `nvidia-smi` value
when the query succeeds (else the scanned load value), replaced by the 30%
default when it is zero. -/
theorem direct_sensor_path_power_selection :
    (∀ sensors : List Sensor,
      (cpuSensorScan sensors).power = lastPackagePowerValue sensors) ∧
    (∀ sensors : List Sensor,
      (gpuSensorScan sensors).power = lastPackagePowerValue sensors) ∧
    (∀ env : CpuReadEnv, env.scanRaises = false →
      ((cpuSensorScan env.sensors).power ≠ 0 →
        (get_cpu_power_lhm env).power = (cpuSensorScan env.sensors).power) ∧
      ((cpuSensorScan env.sensors).power = 0 →
        (get_cpu_power_lhm env).power =
          env.cpu_max_power *
            ((if 0 < (cpuSensorScan env.sensors).utilization then
                (cpuSensorScan env.sensors).utilization
              else env.psutil_cpu_percent) / 100) * CPU_UTILIZATION_SCALING)) ∧
    (∀ env : GpuReadEnv, env.scanRaises = false →
      ((gpuSensorScan env.sensors).power ≠ 0 →
        (get_gpu_power_lhm env).power = (gpuSensorScan env.sensors).power) ∧
      ((gpuSensorScan env.sensors).power = 0 →
        (get_gpu_power_lhm env).power =
          env.gpu_max_power *
            ((let u := match env.nvidia_util with
                | some u => u
                | none => (gpuSensorScan env.sensors).utilization
              if u = 0 then 30 else u) / 100) * GPU_UTILIZATION_SCALING)) := by
  refine ⟨?_, ?_, ?_, ?_⟩
  · intro sensors
    rw [cpuSensorScan, lastPackagePowerValue,
      foldl_power_step_eq_last cpuScanStep cpuScanStep_power]
  · intro sensors
    rw [gpuSensorScan, lastPackagePowerValue,
      foldl_power_step_eq_last gpuScanStep gpuScanStep_power]
  · intro env hr
    constructor
    · intro hp
      rw [get_cpu_power_lhm, if_neg (by simp [hr]), if_neg hp]
    · intro hp
      rw [get_cpu_power_lhm, if_neg (by simp [hr]), if_pos hp]
  · intro env hr
    constructor
    · intro hp
      rw [get_gpu_power_lhm, if_neg (by simp [hr]), if_neg hp]
    · intro hp
      rw [get_gpu_power_lhm, if_neg (by simp [hr]), if_pos hp]
      cases env.nvidia_util with
      | none =>
        by_cases hu : (gpuSensorScan env.sensors).utilization = 0 <;>
          simp [hu]
      | some u =>
        by_cases hu : u = 0 <;> simp [hu]

/-- Claim C8 (witness).  A CPU package power sensor reading 40 W is used
directly; with no package sensor, a GPU with a failed vendor query uses the
30% default: `150 * 30/100 * 0.8 = 36`. -/
theorem direct_sensor_path_power_selection_witness :
    (cpuSensorScan [⟨1, true, false, false, 40⟩]).power =
      lastPackagePowerValue [⟨1, true, false, false, 40⟩] ∧
    (get_cpu_power_lhm ⟨[⟨1, true, false, false, 40⟩], 50,
        DEFAULT_CPU_TDP, false⟩).power =
      (cpuSensorScan [⟨1, true, false, false, 40⟩]).power ∧
    (get_gpu_power_lhm ⟨[], none, DEFAULT_GPU_TDP, false⟩).power =
      DEFAULT_GPU_TDP *
        ((let u := match (none : Option ℚ) with
            | some u => u
            | none => (gpuSensorScan []).utilization
          if u = 0 then 30 else u) / 100) * GPU_UTILIZATION_SCALING := by
  refine ⟨direct_sensor_path_power_selection.1 _, ?_, ?_⟩
  · exact (direct_sensor_path_power_selection.2.2.1
      ⟨[⟨1, true, false, false, 40⟩], 50, DEFAULT_CPU_TDP, false⟩ rfl).1
      (by norm_num [cpuSensorScan, cpuScanStep])
  · exact (direct_sensor_path_power_selection.2.2.2
      ⟨[], none, DEFAULT_GPU_TDP, false⟩ rfl).2 rfl

end PCPower
